import Mathlib

set_option autoImplicit false

/-!
# Context-aware log routing of planks-go (package slog)

Shallow embedding of the context-aware routing core: the wrapper handler
`contextAwareHandler` (its `Enabled`, `Handle`, `WithAttrs`, `WithGroup`
methods) and the lookup helper `FromContext`.

Modelling choices:

* Handler objects are identified by references (`HRef`), mirroring Go
  interface identity: the recursion guard `contextHandler != h` in the
  source is a pointer/identity comparison, so identity must be explicit.
* The observable behavior of every handler the router can delegate to
  (the internal handler and any override logger's handler) is supplied
  by a `HandlerEnv`, a map from references to behavior functions.  The
  theorems quantify over all environments, so delegated handlers are
  treated as opaque collaborators, exactly as the source does.
* Router objects (`contextAwareHandler` structs) live in a `Store`
  mapping a reference (the Go pointer) to the struct's contents; field
  access `h.internal` in the source becomes a store lookup.  `WithAttrs`
  and `WithGroup` allocate a new router at a caller-supplied fresh
  reference, so non-mutation of the original is a provable statement
  about the store, not a triviality of the encoding.
* `Enabled` and `Handle` return, besides the bool / error result that the
  Go methods return, the list of delegated calls they performed
  (`CallEvent`s).  The Go methods perform exactly one delegated call per
  invocation; recording it makes "which handler receives the call"
  observable, which is what the routing properties are about.
* A Go context argument is reduced to what the router reads from it:
  `none` is the nil context, and a non-nil context is represented by the
  result of `ctx.Value(ContextLoggerKey{})` for the package's private
  key.  That result is either absent (`Value` returned nil), a value of
  dynamic type pointer-to-`slog.Logger` (possibly the nil pointer), or a
  value of some other dynamic type.
* Fallible operations return `Option`: a `Handle` outcome is `none`
  (the nil error) or `some e`; `FromContext` returns `none` exactly when
  it does not return normally (a method call on a nil context panics).
-/

/-- Reference identity of a handler object (Go interface/pointer identity). -/
abbrev HRef := Nat

/-- A non-nil `slog.Logger` handle, reduced to what the router reads from
it: the result of its `Handler()` method. -/
structure Logger where
  handler : HRef
  deriving DecidableEq

/-- The dynamic value a context holds under `ContextLoggerKey`:
either a value of dynamic type pointer-to-`slog.Logger` (where `none`
models the typed nil pointer, for which the source's `logger != nil`
test fails), or a value of some other dynamic type (for which the
source's type assertion `loggerValue.(*slog.Logger)` yields `ok = false`). -/
inductive LoggerValue where
  | typedLogger : Option Logger → LoggerValue
  | otherType : LoggerValue
  deriving DecidableEq

/-- A non-nil context, reduced to the result of
`ctx.Value(ContextLoggerKey{})`; `loggerValue = none` models `Value`
returning nil (no value attached under the key). -/
structure CtxObj where
  loggerValue : Option LoggerValue
  deriving DecidableEq

/-- A Go `context.Context` argument: `none` is the nil context. -/
abbrev Context := Option CtxObj

/-- `slog.Level` is an integer. -/
abbrev Level := Int

/-- A log record: message, level and structured attributes.  The router
never inspects a record; it only passes it through. -/
structure Record where
  message : String
  level : Level
  attrs : List (String × String)
  deriving DecidableEq

/-- An opaque error value; a `Handle` outcome is `none` (nil error) or
`some e`. -/
abbrev Err := String

/-- One delegated call made by the router to another handler. -/
inductive CallEvent where
  | enabledCall (target : HRef) (ctx : Context) (level : Level)
  | handleCall (target : HRef) (ctx : Context) (r : Record)
  deriving DecidableEq

/-- The handler a delegated call was addressed to. -/
def CallEvent.target : CallEvent → HRef
  | .enabledCall t _ _ => t
  | .handleCall t _ _ => t

/-- How many calls in a trace are addressed to handler `t`. -/
def countTarget (t : HRef) (es : List CallEvent) : Nat :=
  (es.filter (fun e => e.target == t)).length

/-- Observable behavior of the handlers the router delegates to: for each
reference, an `Enabled` predicate, a `Handle` outcome, and the references
of the handlers derived by `WithAttrs` / `WithGroup`. -/
structure HandlerEnv where
  enabled : HRef → Context → Level → Bool
  handle : HRef → Context → Record → Option Err
  withAttrs : HRef → List (String × String) → HRef
  withGroup : HRef → String → HRef

/-- Contents of a `contextAwareHandler` struct: the wrapped internal
handler (source: field `internal`, set by `newContextAwareHandler`). -/
structure contextAwareHandler where
  internal : HRef
  deriving DecidableEq

/-- Heap of router objects: dereferencing a router pointer yields the
struct's contents. -/
abbrev Store := HRef → contextAwareHandler

/-- `contextAwareHandler.Enabled` (source lines 67-80).  `h` is the
receiver pointer.  Each branch of the source either returns the result of
`contextHandler.Enabled(ctx, level)` (the delegation branch, taken when
the context is non-nil, carries a non-nil value under `ContextLoggerKey`,
that value is a non-nil `*slog.Logger`, and its handler is not `h`
itself) or falls through to `return h.internal.Enabled(ctx, level)`.
The returned list records the one delegated call that was made. -/
def contextAwareHandler.Enabled (env : HandlerEnv) (σ : Store) (h : HRef)
    (ctx : Context) (level : Level) : List CallEvent × Bool :=
  match ctx with
  | some ctxObj =>
    match ctxObj.loggerValue with
    | some loggerValue =>
      match loggerValue with
      | .typedLogger (some logger) =>
        let contextHandler := logger.handler
        if contextHandler ≠ h then
          ([.enabledCall contextHandler ctx level],
            env.enabled contextHandler ctx level)
        else
          ([.enabledCall (σ h).internal ctx level],
            env.enabled (σ h).internal ctx level)
      | .typedLogger none =>
        ([.enabledCall (σ h).internal ctx level],
          env.enabled (σ h).internal ctx level)
      | .otherType =>
        ([.enabledCall (σ h).internal ctx level],
          env.enabled (σ h).internal ctx level)
    | none =>
      ([.enabledCall (σ h).internal ctx level],
        env.enabled (σ h).internal ctx level)
  | none =>
    ([.enabledCall (σ h).internal ctx level],
      env.enabled (σ h).internal ctx level)

/-- `contextAwareHandler.Handle` (source lines 83-96): same resolution
as `Enabled`, applied to the `Handle` operation; returns the delegated
handler's outcome. -/
def contextAwareHandler.Handle (env : HandlerEnv) (σ : Store) (h : HRef)
    (ctx : Context) (r : Record) : List CallEvent × Option Err :=
  match ctx with
  | some ctxObj =>
    match ctxObj.loggerValue with
    | some loggerValue =>
      match loggerValue with
      | .typedLogger (some logger) =>
        let contextHandler := logger.handler
        if contextHandler ≠ h then
          ([.handleCall contextHandler ctx r],
            env.handle contextHandler ctx r)
        else
          ([.handleCall (σ h).internal ctx r],
            env.handle (σ h).internal ctx r)
      | .typedLogger none =>
        ([.handleCall (σ h).internal ctx r],
          env.handle (σ h).internal ctx r)
      | .otherType =>
        ([.handleCall (σ h).internal ctx r],
          env.handle (σ h).internal ctx r)
    | none =>
      ([.handleCall (σ h).internal ctx r],
        env.handle (σ h).internal ctx r)
  | none =>
    ([.handleCall (σ h).internal ctx r],
      env.handle (σ h).internal ctx r)

/-- `contextAwareHandler.WithAttrs` (source lines 99-103): allocates a
new router (at the caller-supplied fresh reference, modelling `&`) whose
internal handler is `h.internal.WithAttrs(attrs)`; returns the updated
store and the new router's reference. -/
def contextAwareHandler.WithAttrs (env : HandlerEnv) (σ : Store) (h : HRef)
    (attrs : List (String × String)) (fresh : HRef) : Store × HRef :=
  (Function.update σ fresh ⟨env.withAttrs (σ h).internal attrs⟩, fresh)

/-- `contextAwareHandler.WithGroup` (source lines 106-110): allocates a
new router whose internal handler is `h.internal.WithGroup(name)`. -/
def contextAwareHandler.WithGroup (env : HandlerEnv) (σ : Store) (h : HRef)
    (name : String) (fresh : HRef) : Store × HRef :=
  (Function.update σ fresh ⟨env.withGroup (σ h).internal name⟩, fresh)

/-- `FromContext` (source lines 120-127).  `defaultLogger` stands for the
currently installed `slog.Default()`.  The source calls
`ctx.Value(ContextLoggerKey{})` without a nil check on `ctx`, so on the
nil context the method call dereferences nil and panics: that abnormal
exit is modelled by `none`.  On a non-nil context it returns the attached
logger when it is a non-nil `*slog.Logger`, else the default logger. -/
def FromContext (defaultLogger : Logger) (ctx : Context) : Option Logger :=
  match ctx with
  | none => none
  | some ctxObj =>
    match ctxObj.loggerValue with
    | some loggerValue =>
      match loggerValue with
      | .typedLogger (some logger) => some logger
      | .typedLogger none => some defaultLogger
      | .otherType => some defaultLogger
    | none => some defaultLogger

/-- The three-way resolution rule as the specification words it
(spec 4.1): context absent, no override found, or override resolving to
the Router itself delegate to the internal handler; an override distinct
from the Router delegates to the override logger's handler.  A value that
is not a well-formed non-nil logger handle counts as "no override found"
(spec 6, lookup contract).  Stated from the spec to be compared with the
source-translated `Enabled` and `Handle`. -/
def specResolve (σ : Store) (h : HRef) (ctx : Context) : HRef :=
  match ctx with
  | none => (σ h).internal
  | some ctxObj =>
    match ctxObj.loggerValue with
    | some (.typedLogger (some logger)) =>
      if logger.handler = h then (σ h).internal else logger.handler
    | _ => (σ h).internal

/-- Concrete handler environment used by witnesses: every handler reports
enabled, succeeds, and derivation returns the same reference. -/
def envW : HandlerEnv :=
  ⟨fun _ _ _ => true, fun _ _ _ => none, fun i _ => i, fun i _ => i⟩

/-- Concrete store used by witnesses: every router wraps handler `1`. -/
def σW : Store := fun _ => ⟨1⟩

/-- Concrete record used by witnesses. -/
def recW : Record := ⟨"m", 0, []⟩

/-! ## Shared lemmas

`enabled_eq` and `handle_eq` show that each method performs exactly one
delegated call, addressed to the handler the spec's three-way rule
selects, and returns that handler's answer; the `store_local` lemmas
show that only the router's own struct is read from the store. -/

theorem contextAwareHandler.enabled_eq (env : HandlerEnv) (σ : Store)
    (h : HRef) (ctx : Context) (level : Level) :
    contextAwareHandler.Enabled env σ h ctx level
      = ([CallEvent.enabledCall (specResolve σ h ctx) ctx level],
          env.enabled (specResolve σ h ctx) ctx level) := by
  rcases ctx with _ | ⟨_ | (⟨_ | l⟩ | _)⟩
  · simp [contextAwareHandler.Enabled, specResolve]
  · simp [contextAwareHandler.Enabled, specResolve]
  · simp [contextAwareHandler.Enabled, specResolve]
  · by_cases hlh : l.handler = h <;>
      simp [contextAwareHandler.Enabled, specResolve, hlh]
  · simp [contextAwareHandler.Enabled, specResolve]

theorem contextAwareHandler.handle_eq (env : HandlerEnv) (σ : Store)
    (h : HRef) (ctx : Context) (r : Record) :
    contextAwareHandler.Handle env σ h ctx r
      = ([CallEvent.handleCall (specResolve σ h ctx) ctx r],
          env.handle (specResolve σ h ctx) ctx r) := by
  rcases ctx with _ | ⟨_ | (⟨_ | l⟩ | _)⟩
  · simp [contextAwareHandler.Handle, specResolve]
  · simp [contextAwareHandler.Handle, specResolve]
  · simp [contextAwareHandler.Handle, specResolve]
  · by_cases hlh : l.handler = h <;>
      simp [contextAwareHandler.Handle, specResolve, hlh]
  · simp [contextAwareHandler.Handle, specResolve]

theorem specResolve_store_local (σ σ' : Store) (h : HRef) (ctx : Context)
    (hloc : σ h = σ' h) : specResolve σ h ctx = specResolve σ' h ctx := by
  rcases ctx with _ | ⟨_ | (⟨_ | l⟩ | _)⟩ <;> simp [specResolve, hloc]

theorem contextAwareHandler.enabled_store_local (env : HandlerEnv)
    (σ σ' : Store) (h : HRef) (ctx : Context) (level : Level)
    (hloc : σ h = σ' h) :
    contextAwareHandler.Enabled env σ h ctx level
      = contextAwareHandler.Enabled env σ' h ctx level := by
  rw [contextAwareHandler.enabled_eq, contextAwareHandler.enabled_eq,
    specResolve_store_local σ σ' h ctx hloc]

theorem contextAwareHandler.handle_store_local (env : HandlerEnv)
    (σ σ' : Store) (h : HRef) (ctx : Context) (r : Record)
    (hloc : σ h = σ' h) :
    contextAwareHandler.Handle env σ h ctx r
      = contextAwareHandler.Handle env σ' h ctx r := by
  rw [contextAwareHandler.handle_eq, contextAwareHandler.handle_eq,
    specResolve_store_local σ σ' h ctx hloc]

theorem countTarget_single_ne (t u : HRef) (e : CallEvent)
    (he : e.target = u) (hne : u ≠ t) : countTarget t [e] = 0 := by
  simp [countTarget, he, hne]

/-! ## Claims -/

/-- C1 (counterexample): the claim asserts that whenever the context
carries a well-typed override logger whose handler is distinct from the
Router, the internal handler receives zero calls.  Take the Router at
reference 0 whose internal handler is reference 1, and a context whose
override logger is backed by that same handler 1.  The override's
handler (1) is distinct from the Router (0), so the guard passes and the
call is delegated to handler 1 — which is the internal handler: it
receives one call, not zero. -/
theorem contextAwareHandler.c1_zero_internal_calls_fails :
    ((⟨1⟩ : Logger).handler ≠ (0 : HRef))
  ∧ (σW 0).internal = 1
  ∧ countTarget ((σW 0).internal)
      (contextAwareHandler.Handle envW σW 0
        (some ⟨some (.typedLogger (some ⟨1⟩))⟩) recW).fst = 1
  ∧ countTarget ((σW 0).internal)
      (contextAwareHandler.Handle envW σW 0
        (some ⟨some (.typedLogger (some ⟨1⟩))⟩) recW).fst ≠ 0 := by
  decide

/-- C1 (amended): `Handle` applies the three-way resolution.  With a nil
context, or a context carrying no value under `ContextLoggerKey`, the
call is delegated to the internal handler and to no other handler (the
trace is exactly that one call).  With a context carrying a well-typed
override logger whose handler is distinct from the Router, the call is
delegated exactly to that override logger's handler, passing the same
context and record, and — provided that handler is also distinct from
the internal handler — the internal handler receives zero calls. -/
theorem contextAwareHandler.c1_three_way_routing (env : HandlerEnv)
    (σ : Store) (h : HRef) (r : Record) (c0 c : CtxObj) (l : Logger)
    (h0 : c0.loggerValue = none)
    (hv : c.loggerValue = some (.typedLogger (some l)))
    (hd : l.handler ≠ h)
    (hdi : l.handler ≠ (σ h).internal) :
    contextAwareHandler.Handle env σ h none r
      = ([CallEvent.handleCall (σ h).internal none r],
          env.handle (σ h).internal none r)
  ∧ contextAwareHandler.Handle env σ h (some c0) r
      = ([CallEvent.handleCall (σ h).internal (some c0) r],
          env.handle (σ h).internal (some c0) r)
  ∧ contextAwareHandler.Handle env σ h (some c) r
      = ([CallEvent.handleCall l.handler (some c) r],
          env.handle l.handler (some c) r)
  ∧ countTarget ((σ h).internal)
      (contextAwareHandler.Handle env σ h (some c) r).fst = 0 := by
  refine ⟨?_, ?_, ?_, ?_⟩
  · rw [contextAwareHandler.handle_eq]
    rfl
  · rw [contextAwareHandler.handle_eq]
    simp [specResolve, h0]
  · rw [contextAwareHandler.handle_eq]
    simp [specResolve, hv, hd]
  · rw [contextAwareHandler.handle_eq]
    exact countTarget_single_ne _ _ _ rfl
      (by simp [CallEvent.target, specResolve, hv, hd, hdi])

/-- C1 witness: the amended theorem applied at the Router 0 wrapping
handler 1, an empty context, and a context carrying override handler 2. -/
theorem contextAwareHandler.c1_three_way_routing_witness :
    ((⟨none⟩ : CtxObj).loggerValue = none)
  ∧ ((⟨some (.typedLogger (some ⟨2⟩))⟩ : CtxObj).loggerValue
      = some (.typedLogger (some (⟨2⟩ : Logger))))
  ∧ ((⟨2⟩ : Logger).handler ≠ (0 : HRef))
  ∧ ((⟨2⟩ : Logger).handler ≠ (σW 0).internal)
  ∧ (contextAwareHandler.Handle envW σW 0 none recW
      = ([CallEvent.handleCall (σW 0).internal none recW],
          envW.handle (σW 0).internal none recW)
    ∧ contextAwareHandler.Handle envW σW 0 (some ⟨none⟩) recW
      = ([CallEvent.handleCall (σW 0).internal (some ⟨none⟩) recW],
          envW.handle (σW 0).internal (some ⟨none⟩) recW)
    ∧ contextAwareHandler.Handle envW σW 0
        (some ⟨some (.typedLogger (some ⟨2⟩))⟩) recW
      = ([CallEvent.handleCall (⟨2⟩ : Logger).handler
            (some ⟨some (.typedLogger (some ⟨2⟩))⟩) recW],
          envW.handle (⟨2⟩ : Logger).handler
            (some ⟨some (.typedLogger (some ⟨2⟩))⟩) recW)
    ∧ countTarget ((σW 0).internal)
        (contextAwareHandler.Handle envW σW 0
          (some ⟨some (.typedLogger (some ⟨2⟩))⟩) recW).fst = 0) :=
  ⟨rfl, rfl, by decide, by decide,
    contextAwareHandler.c1_three_way_routing envW σW 0 recW ⟨none⟩
      ⟨some (.typedLogger (some ⟨2⟩))⟩ ⟨2⟩ rfl rfl (by decide) (by decide)⟩

/-- C2: for every environment, store, Router, context, level and record,
`Enabled` and `Handle` each perform exactly one delegated call, both
addressed to the handler selected by the spec's three-way rule
(`specResolve`), and each returns that handler's answer for the same
context and level (resp. record) — so the enabled-check and the emit
operation never disagree about which handler is authoritative. -/
theorem contextAwareHandler.c2_enabled_handle_agree (env : HandlerEnv)
    (σ : Store) (h : HRef) (ctx : Context) (level : Level) (r : Record) :
    contextAwareHandler.Enabled env σ h ctx level
      = ([CallEvent.enabledCall (specResolve σ h ctx) ctx level],
          env.enabled (specResolve σ h ctx) ctx level)
  ∧ contextAwareHandler.Handle env σ h ctx r
      = ([CallEvent.handleCall (specResolve σ h ctx) ctx r],
          env.handle (specResolve σ h ctx) ctx r) :=
  ⟨contextAwareHandler.enabled_eq env σ h ctx level,
    contextAwareHandler.handle_eq env σ h ctx r⟩

/-- C3: recursion guard.  For every context whose override logger's
handler is identical to the Router itself, both `Enabled` and `Handle`
delegate to the internal handler, and (given that a Router never wraps
itself, `(σ h).internal ≠ h`) neither trace contains a call addressed to
the Router — no call recurses back into the same Router. -/
theorem contextAwareHandler.c3_no_self_delegation (env : HandlerEnv)
    (σ : Store) (h : HRef) (level : Level) (r : Record) (c : CtxObj)
    (l : Logger)
    (hv : c.loggerValue = some (.typedLogger (some l)))
    (hself : l.handler = h)
    (hwf : (σ h).internal ≠ h) :
    contextAwareHandler.Enabled env σ h (some c) level
      = ([CallEvent.enabledCall (σ h).internal (some c) level],
          env.enabled (σ h).internal (some c) level)
  ∧ contextAwareHandler.Handle env σ h (some c) r
      = ([CallEvent.handleCall (σ h).internal (some c) r],
          env.handle (σ h).internal (some c) r)
  ∧ countTarget h (contextAwareHandler.Enabled env σ h (some c) level).fst = 0
  ∧ countTarget h (contextAwareHandler.Handle env σ h (some c) r).fst = 0 := by
  refine ⟨?_, ?_, ?_, ?_⟩
  · rw [contextAwareHandler.enabled_eq]
    simp [specResolve, hv, hself]
  · rw [contextAwareHandler.handle_eq]
    simp [specResolve, hv, hself]
  · rw [contextAwareHandler.enabled_eq]
    exact countTarget_single_ne _ _ _ rfl
      (by simp [CallEvent.target, specResolve, hv, hself, hwf])
  · rw [contextAwareHandler.handle_eq]
    exact countTarget_single_ne _ _ _ rfl
      (by simp [CallEvent.target, specResolve, hv, hself, hwf])

/-- C3 witness: Router 0 wrapping handler 1, context whose override
logger is backed by the Router itself (handler reference 0). -/
theorem contextAwareHandler.c3_no_self_delegation_witness :
    ((⟨some (.typedLogger (some ⟨0⟩))⟩ : CtxObj).loggerValue
      = some (.typedLogger (some (⟨0⟩ : Logger))))
  ∧ ((⟨0⟩ : Logger).handler = (0 : HRef))
  ∧ ((σW 0).internal ≠ 0)
  ∧ (contextAwareHandler.Enabled envW σW 0
        (some ⟨some (.typedLogger (some ⟨0⟩))⟩) 3
      = ([CallEvent.enabledCall (σW 0).internal
            (some ⟨some (.typedLogger (some ⟨0⟩))⟩) 3],
          envW.enabled (σW 0).internal
            (some ⟨some (.typedLogger (some ⟨0⟩))⟩) 3)
    ∧ contextAwareHandler.Handle envW σW 0
        (some ⟨some (.typedLogger (some ⟨0⟩))⟩) recW
      = ([CallEvent.handleCall (σW 0).internal
            (some ⟨some (.typedLogger (some ⟨0⟩))⟩) recW],
          envW.handle (σW 0).internal
            (some ⟨some (.typedLogger (some ⟨0⟩))⟩) recW)
    ∧ countTarget 0 (contextAwareHandler.Enabled envW σW 0
        (some ⟨some (.typedLogger (some ⟨0⟩))⟩) 3).fst = 0
    ∧ countTarget 0 (contextAwareHandler.Handle envW σW 0
        (some ⟨some (.typedLogger (some ⟨0⟩))⟩) recW).fst = 0) :=
  ⟨rfl, rfl, by decide,
    contextAwareHandler.c3_no_self_delegation envW σW 0 3 recW
      ⟨some (.typedLogger (some ⟨0⟩))⟩ ⟨0⟩ rfl rfl (by decide)⟩

/-- C5: for every record and context, `Handle` returns exactly the
outcome produced by the handler it delegated to, unchanged: there is a
target handler such that the whole invocation is one delegated call to
it and the returned outcome is that handler's outcome.  Since this holds
for every environment — including ones whose handlers fail arbitrarily —
the Router never produces, wraps, swallows or rewrites an error. -/
theorem contextAwareHandler.c5_outcome_transparent (env : HandlerEnv)
    (σ : Store) (h : HRef) (ctx : Context) (r : Record) :
    ∃ t, contextAwareHandler.Handle env σ h ctx r
        = ([CallEvent.handleCall t ctx r], env.handle t ctx r) :=
  ⟨specResolve σ h ctx, contextAwareHandler.handle_eq env σ h ctx r⟩

/-- C4 (counterexample): the claim asserts `FromContext` never fails for
every context, including the nil context, returning the global default
when no override is attached.  The source calls
`ctx.Value(ContextLoggerKey{})` with no nil check on `ctx`, so on the
nil context the method call dereferences nil and panics instead of
returning the default logger. -/
theorem FromContext_nil_context_fails :
    (FromContext ⟨7⟩ none).isSome = false
  ∧ FromContext ⟨7⟩ none ≠ some ⟨7⟩ := by decide

/-- C4 (amended): for every non-nil context, `FromContext` returns the
override logger when one is attached under `ContextLoggerKey` as a
well-formed non-nil logger, and otherwise (no value, ill-typed value, or
typed nil logger) returns the installed global default logger; on every
non-nil context it returns normally.  On the nil context it does not
return normally (nil method call). -/
theorem FromContext_total_on_nonnil (d l : Logger) (c cn co cnl : CtxObj)
    (hv : c.loggerValue = some (.typedLogger (some l)))
    (hn : cn.loggerValue = none)
    (ho : co.loggerValue = some .otherType)
    (hnl : cnl.loggerValue = some (.typedLogger none)) :
    FromContext d (some c) = some l
  ∧ FromContext d (some cn) = some d
  ∧ FromContext d (some co) = some d
  ∧ FromContext d (some cnl) = some d
  ∧ (∀ x : CtxObj, (FromContext d (some x)).isSome = true)
  ∧ FromContext d none = none := by
  refine ⟨?_, ?_, ?_, ?_, ?_, rfl⟩
  · simp [FromContext, hv]
  · simp [FromContext, hn]
  · simp [FromContext, ho]
  · simp [FromContext, hnl]
  · intro x
    rcases x with ⟨_ | (⟨_ | l0⟩ | _)⟩ <;> simp [FromContext]

/-- C4 witness: the amended theorem applied at default logger 7 and the
four kinds of non-nil context. -/
theorem FromContext_total_on_nonnil_witness :
    ((⟨some (.typedLogger (some ⟨2⟩))⟩ : CtxObj).loggerValue
      = some (.typedLogger (some (⟨2⟩ : Logger))))
  ∧ ((⟨none⟩ : CtxObj).loggerValue = none)
  ∧ ((⟨some .otherType⟩ : CtxObj).loggerValue = some .otherType)
  ∧ ((⟨some (.typedLogger none)⟩ : CtxObj).loggerValue
      = some (.typedLogger none))
  ∧ (FromContext ⟨7⟩ (some ⟨some (.typedLogger (some ⟨2⟩))⟩) = some ⟨2⟩
    ∧ FromContext ⟨7⟩ (some ⟨none⟩) = some ⟨7⟩
    ∧ FromContext ⟨7⟩ (some ⟨some .otherType⟩) = some ⟨7⟩
    ∧ FromContext ⟨7⟩ (some ⟨some (.typedLogger none)⟩) = some ⟨7⟩
    ∧ (∀ x : CtxObj, (FromContext ⟨7⟩ (some x)).isSome = true)
    ∧ FromContext ⟨7⟩ none = none) :=
  ⟨rfl, rfl, rfl, rfl,
    FromContext_total_on_nonnil ⟨7⟩ ⟨2⟩ ⟨some (.typedLogger (some ⟨2⟩))⟩
      ⟨none⟩ ⟨some .otherType⟩ ⟨some (.typedLogger none)⟩ rfl rfl rfl rfl⟩

/-- C6: `WithAttrs` returns a new Router whose internal handler is
`internal.WithAttrs(attrs)`, and `WithGroup` a new Router whose internal
handler is `internal.WithGroup(name)`; the result is again a
context-aware Router: invoked with no overriding context it delegates to
its (derived) internal handler. -/
theorem contextAwareHandler.c6_derive_wraps_derived_internal
    (env : HandlerEnv) (σ : Store) (h : HRef)
    (attrs : List (String × String)) (g : String) (fa fg : HRef)
    (level : Level) :
    (contextAwareHandler.WithAttrs env σ h attrs fa).snd = fa
  ∧ (((contextAwareHandler.WithAttrs env σ h attrs fa).fst fa).internal
      = env.withAttrs (σ h).internal attrs)
  ∧ (contextAwareHandler.WithGroup env σ h g fg).snd = fg
  ∧ (((contextAwareHandler.WithGroup env σ h g fg).fst fg).internal
      = env.withGroup (σ h).internal g)
  ∧ contextAwareHandler.Enabled env
        (contextAwareHandler.WithAttrs env σ h attrs fa).fst fa none level
      = ([CallEvent.enabledCall (env.withAttrs (σ h).internal attrs)
            none level],
          env.enabled (env.withAttrs (σ h).internal attrs) none level)
  ∧ contextAwareHandler.Enabled env
        (contextAwareHandler.WithGroup env σ h g fg).fst fg none level
      = ([CallEvent.enabledCall (env.withGroup (σ h).internal g)
            none level],
          env.enabled (env.withGroup (σ h).internal g) none level) := by
  refine ⟨rfl, ?_, rfl, ?_, ?_, ?_⟩
  · simp [contextAwareHandler.WithAttrs]
  · simp [contextAwareHandler.WithGroup]
  · rw [contextAwareHandler.enabled_eq]
    simp [specResolve, contextAwareHandler.WithAttrs]
  · rw [contextAwareHandler.enabled_eq]
    simp [specResolve, contextAwareHandler.WithGroup]

/-- C7: deriving does not mutate the original Router.  When the new
Router is allocated at a reference distinct from the original (Go
allocation guarantees freshness), the original's struct — hence its
internal-handler reference — is unchanged in the post-derivation store,
and `Enabled` and `Handle` through the original are unchanged for every
context, level and record. -/
theorem contextAwareHandler.c7_derivation_frame (env : HandlerEnv)
    (σ : Store) (h : HRef) (attrs : List (String × String)) (g : String)
    (fa fg : HRef) (ctx : Context) (level : Level) (r : Record)
    (hfa : fa ≠ h) (hfg : fg ≠ h) :
    ((contextAwareHandler.WithAttrs env σ h attrs fa).fst h = σ h)
  ∧ ((contextAwareHandler.WithGroup env σ h g fg).fst h = σ h)
  ∧ contextAwareHandler.Enabled env
        (contextAwareHandler.WithAttrs env σ h attrs fa).fst h ctx level
      = contextAwareHandler.Enabled env σ h ctx level
  ∧ contextAwareHandler.Handle env
        (contextAwareHandler.WithAttrs env σ h attrs fa).fst h ctx r
      = contextAwareHandler.Handle env σ h ctx r
  ∧ contextAwareHandler.Enabled env
        (contextAwareHandler.WithGroup env σ h g fg).fst h ctx level
      = contextAwareHandler.Enabled env σ h ctx level
  ∧ contextAwareHandler.Handle env
        (contextAwareHandler.WithGroup env σ h g fg).fst h ctx r
      = contextAwareHandler.Handle env σ h ctx r := by
  have ha : (contextAwareHandler.WithAttrs env σ h attrs fa).fst h = σ h :=
    Function.update_noteq (Ne.symm hfa) _ _
  have hg : (contextAwareHandler.WithGroup env σ h g fg).fst h = σ h :=
    Function.update_noteq (Ne.symm hfg) _ _
  exact ⟨ha, hg,
    contextAwareHandler.enabled_store_local env _ σ h ctx level ha,
    contextAwareHandler.handle_store_local env _ σ h ctx r ha,
    contextAwareHandler.enabled_store_local env _ σ h ctx level hg,
    contextAwareHandler.handle_store_local env _ σ h ctx r hg⟩

/-- C7 witness: the frame theorem applied at Router 0, fresh references
5 and 6, and an override-bearing context. -/
theorem contextAwareHandler.c7_derivation_frame_witness :
    ((5 : HRef) ≠ 0) ∧ ((6 : HRef) ≠ 0)
  ∧ (((contextAwareHandler.WithAttrs envW σW 0 [] 5).fst 0 = σW 0)
    ∧ ((contextAwareHandler.WithGroup envW σW 0 "g" 6).fst 0 = σW 0)
    ∧ contextAwareHandler.Enabled envW
          (contextAwareHandler.WithAttrs envW σW 0 [] 5).fst 0
          (some ⟨some (.typedLogger (some ⟨2⟩))⟩) 3
        = contextAwareHandler.Enabled envW σW 0
            (some ⟨some (.typedLogger (some ⟨2⟩))⟩) 3
    ∧ contextAwareHandler.Handle envW
          (contextAwareHandler.WithAttrs envW σW 0 [] 5).fst 0
          (some ⟨some (.typedLogger (some ⟨2⟩))⟩) recW
        = contextAwareHandler.Handle envW σW 0
            (some ⟨some (.typedLogger (some ⟨2⟩))⟩) recW
    ∧ contextAwareHandler.Enabled envW
          (contextAwareHandler.WithGroup envW σW 0 "g" 6).fst 0
          (some ⟨some (.typedLogger (some ⟨2⟩))⟩) 3
        = contextAwareHandler.Enabled envW σW 0
            (some ⟨some (.typedLogger (some ⟨2⟩))⟩) 3
    ∧ contextAwareHandler.Handle envW
          (contextAwareHandler.WithGroup envW σW 0 "g" 6).fst 0
          (some ⟨some (.typedLogger (some ⟨2⟩))⟩) recW
        = contextAwareHandler.Handle envW σW 0
            (some ⟨some (.typedLogger (some ⟨2⟩))⟩) recW) :=
  ⟨by decide, by decide,
    contextAwareHandler.c7_derivation_frame envW σW 0 [] "g" 5 6
      (some ⟨some (.typedLogger (some ⟨2⟩))⟩) 3 recW
      (by decide) (by decide)⟩

/-- C8: derived attributes and groups apply only to the internal branch.
For a Router derived via `WithAttrs` (resp. `WithGroup`), a `Handle`
call whose context carries an override logger distinct from the derived
Router delegates exactly to that override logger's handler, with the
context and record passed through untouched by the derived attributes or
group; when the override's handler is also distinct from the derived
internal handler, the derived internal handler receives zero calls — the
derived attribute set is never merged into the override path. -/
theorem contextAwareHandler.c8_override_path_without_derived
    (env : HandlerEnv) (σ : Store) (h : HRef)
    (attrs : List (String × String)) (g : String) (fa fg : HRef)
    (r : Record) (c : CtxObj) (l : Logger)
    (hv : c.loggerValue = some (.typedLogger (some l)))
    (hda : l.handler ≠ fa) (hdg : l.handler ≠ fg)
    (hia : l.handler ≠ env.withAttrs (σ h).internal attrs)
    (hig : l.handler ≠ env.withGroup (σ h).internal g) :
    contextAwareHandler.Handle env
        (contextAwareHandler.WithAttrs env σ h attrs fa).fst fa (some c) r
      = ([CallEvent.handleCall l.handler (some c) r],
          env.handle l.handler (some c) r)
  ∧ countTarget (env.withAttrs (σ h).internal attrs)
      (contextAwareHandler.Handle env
        (contextAwareHandler.WithAttrs env σ h attrs fa).fst fa
        (some c) r).fst = 0
  ∧ contextAwareHandler.Handle env
        (contextAwareHandler.WithGroup env σ h g fg).fst fg (some c) r
      = ([CallEvent.handleCall l.handler (some c) r],
          env.handle l.handler (some c) r)
  ∧ countTarget (env.withGroup (σ h).internal g)
      (contextAwareHandler.Handle env
        (contextAwareHandler.WithGroup env σ h g fg).fst fg
        (some c) r).fst = 0 := by
  refine ⟨?_, ?_, ?_, ?_⟩
  · rw [contextAwareHandler.handle_eq]
    simp [specResolve, hv, hda]
  · rw [contextAwareHandler.handle_eq]
    exact countTarget_single_ne _ _ _ rfl
      (by simp [CallEvent.target, specResolve, hv, hda, hia])
  · rw [contextAwareHandler.handle_eq]
    simp [specResolve, hv, hdg]
  · rw [contextAwareHandler.handle_eq]
    exact countTarget_single_ne _ _ _ rfl
      (by simp [CallEvent.target, specResolve, hv, hdg, hig])

/-- C8 witness: Router 0 wrapping handler 1 derived at fresh references
5 and 6, context carrying override handler 2. -/
theorem contextAwareHandler.c8_override_path_without_derived_witness :
    ((⟨some (.typedLogger (some ⟨2⟩))⟩ : CtxObj).loggerValue
      = some (.typedLogger (some (⟨2⟩ : Logger))))
  ∧ ((⟨2⟩ : Logger).handler ≠ (5 : HRef))
  ∧ ((⟨2⟩ : Logger).handler ≠ (6 : HRef))
  ∧ ((⟨2⟩ : Logger).handler ≠ envW.withAttrs (σW 0).internal [])
  ∧ ((⟨2⟩ : Logger).handler ≠ envW.withGroup (σW 0).internal "g")
  ∧ (contextAwareHandler.Handle envW
        (contextAwareHandler.WithAttrs envW σW 0 [] 5).fst 5
        (some ⟨some (.typedLogger (some ⟨2⟩))⟩) recW
      = ([CallEvent.handleCall (⟨2⟩ : Logger).handler
            (some ⟨some (.typedLogger (some ⟨2⟩))⟩) recW],
          envW.handle (⟨2⟩ : Logger).handler
            (some ⟨some (.typedLogger (some ⟨2⟩))⟩) recW)
    ∧ countTarget (envW.withAttrs (σW 0).internal [])
        (contextAwareHandler.Handle envW
          (contextAwareHandler.WithAttrs envW σW 0 [] 5).fst 5
          (some ⟨some (.typedLogger (some ⟨2⟩))⟩) recW).fst = 0
    ∧ contextAwareHandler.Handle envW
        (contextAwareHandler.WithGroup envW σW 0 "g" 6).fst 6
        (some ⟨some (.typedLogger (some ⟨2⟩))⟩) recW
      = ([CallEvent.handleCall (⟨2⟩ : Logger).handler
            (some ⟨some (.typedLogger (some ⟨2⟩))⟩) recW],
          envW.handle (⟨2⟩ : Logger).handler
            (some ⟨some (.typedLogger (some ⟨2⟩))⟩) recW)
    ∧ countTarget (envW.withGroup (σW 0).internal "g")
        (contextAwareHandler.Handle envW
          (contextAwareHandler.WithGroup envW σW 0 "g" 6).fst 6
          (some ⟨some (.typedLogger (some ⟨2⟩))⟩) recW).fst = 0) :=
  ⟨rfl, by decide, by decide, by decide, by decide,
    contextAwareHandler.c8_override_path_without_derived envW σW 0 [] "g"
      5 6 recW ⟨some (.typedLogger (some ⟨2⟩))⟩ ⟨2⟩ rfl
      (by decide) (by decide) (by decide) (by decide)⟩

/-- C9: a context value under `ContextLoggerKey` that is not a non-nil
pointer to a logger — wrong dynamic type, or a typed nil logger — makes
both `Enabled` and `Handle` fall back to the internal handler exactly as
if no override were attached: the whole invocation is the one delegated
call to the internal handler, the result is the internal handler's
answer, and the ill-typed value never reaches the delegation path. -/
theorem contextAwareHandler.c9_illtyped_falls_back (env : HandlerEnv)
    (σ : Store) (h : HRef) (level : Level) (r : Record) (co cnl : CtxObj)
    (ho : co.loggerValue = some .otherType)
    (hnl : cnl.loggerValue = some (.typedLogger none)) :
    contextAwareHandler.Enabled env σ h (some co) level
      = ([CallEvent.enabledCall (σ h).internal (some co) level],
          env.enabled (σ h).internal (some co) level)
  ∧ contextAwareHandler.Handle env σ h (some co) r
      = ([CallEvent.handleCall (σ h).internal (some co) r],
          env.handle (σ h).internal (some co) r)
  ∧ contextAwareHandler.Enabled env σ h (some cnl) level
      = ([CallEvent.enabledCall (σ h).internal (some cnl) level],
          env.enabled (σ h).internal (some cnl) level)
  ∧ contextAwareHandler.Handle env σ h (some cnl) r
      = ([CallEvent.handleCall (σ h).internal (some cnl) r],
          env.handle (σ h).internal (some cnl) r) := by
  refine ⟨?_, ?_, ?_, ?_⟩
  · rw [contextAwareHandler.enabled_eq]
    simp [specResolve, ho]
  · rw [contextAwareHandler.handle_eq]
    simp [specResolve, ho]
  · rw [contextAwareHandler.enabled_eq]
    simp [specResolve, hnl]
  · rw [contextAwareHandler.handle_eq]
    simp [specResolve, hnl]

/-- C9 witness: the theorem applied at Router 0 wrapping handler 1, a
context carrying a value of the wrong dynamic type, and a context
carrying a typed nil logger. -/
theorem contextAwareHandler.c9_illtyped_falls_back_witness :
    ((⟨some .otherType⟩ : CtxObj).loggerValue = some .otherType)
  ∧ ((⟨some (.typedLogger none)⟩ : CtxObj).loggerValue
      = some (.typedLogger none))
  ∧ (contextAwareHandler.Enabled envW σW 0 (some ⟨some .otherType⟩) 3
      = ([CallEvent.enabledCall (σW 0).internal (some ⟨some .otherType⟩) 3],
          envW.enabled (σW 0).internal (some ⟨some .otherType⟩) 3)
    ∧ contextAwareHandler.Handle envW σW 0 (some ⟨some .otherType⟩) recW
      = ([CallEvent.handleCall (σW 0).internal
            (some ⟨some .otherType⟩) recW],
          envW.handle (σW 0).internal (some ⟨some .otherType⟩) recW)
    ∧ contextAwareHandler.Enabled envW σW 0
        (some ⟨some (.typedLogger none)⟩) 3
      = ([CallEvent.enabledCall (σW 0).internal
            (some ⟨some (.typedLogger none)⟩) 3],
          envW.enabled (σW 0).internal (some ⟨some (.typedLogger none)⟩) 3)
    ∧ contextAwareHandler.Handle envW σW 0
        (some ⟨some (.typedLogger none)⟩) recW
      = ([CallEvent.handleCall (σW 0).internal
            (some ⟨some (.typedLogger none)⟩) recW],
          envW.handle (σW 0).internal
            (some ⟨some (.typedLogger none)⟩) recW)) :=
  ⟨rfl, rfl,
    contextAwareHandler.c9_illtyped_falls_back envW σW 0 3 recW
      ⟨some .otherType⟩ ⟨some (.typedLogger none)⟩ rfl rfl⟩

/-- C10: resolution is deterministic and stateless.  `Enabled` and
`Handle` read nothing from the store but the Router's own struct: any
two stores agreeing on the Router give identical results, so no call
retains or depends on hidden per-call state.  Moreover the selected
target is the same for the enabled-check and the emit, and it is
independent of the handlers' behaviors — resolution is a pure function
of (context, Router identity, override-handler identity).  Two
invocations with the same arguments are equal applications of these
functions, hence return equal results. -/
theorem contextAwareHandler.c10_resolution_stateless (env env' : HandlerEnv)
    (σ σ' : Store) (h : HRef) (ctx : Context) (level : Level) (r : Record)
    (hloc : σ h = σ' h) :
    contextAwareHandler.Enabled env σ h ctx level
      = contextAwareHandler.Enabled env σ' h ctx level
  ∧ contextAwareHandler.Handle env σ h ctx r
      = contextAwareHandler.Handle env σ' h ctx r
  ∧ ((contextAwareHandler.Enabled env σ h ctx level).fst.map
        CallEvent.target
      = (contextAwareHandler.Handle env σ h ctx r).fst.map
          CallEvent.target)
  ∧ ((contextAwareHandler.Handle env σ h ctx r).fst.map CallEvent.target
      = (contextAwareHandler.Handle env' σ h ctx r).fst.map
          CallEvent.target) := by
  refine ⟨contextAwareHandler.enabled_store_local env σ σ' h ctx level hloc,
    contextAwareHandler.handle_store_local env σ σ' h ctx r hloc, ?_, ?_⟩
  · rw [contextAwareHandler.enabled_eq, contextAwareHandler.handle_eq]
    simp [CallEvent.target]
  · rw [contextAwareHandler.handle_eq, contextAwareHandler.handle_eq]

/-- C10 witness: two stores agreeing at the Router's reference but
differing elsewhere, and two environments. -/
theorem contextAwareHandler.c10_resolution_stateless_witness :
    (σW 0 = (fun i => if i = 0 then ⟨1⟩ else ⟨9⟩ : Store) 0)
  ∧ (contextAwareHandler.Enabled envW σW 0
        (some ⟨some (.typedLogger (some ⟨2⟩))⟩) 3
      = contextAwareHandler.Enabled envW
          (fun i => if i = 0 then ⟨1⟩ else ⟨9⟩) 0
          (some ⟨some (.typedLogger (some ⟨2⟩))⟩) 3
    ∧ contextAwareHandler.Handle envW σW 0
        (some ⟨some (.typedLogger (some ⟨2⟩))⟩) recW
      = contextAwareHandler.Handle envW
          (fun i => if i = 0 then ⟨1⟩ else ⟨9⟩) 0
          (some ⟨some (.typedLogger (some ⟨2⟩))⟩) recW
    ∧ ((contextAwareHandler.Enabled envW σW 0
          (some ⟨some (.typedLogger (some ⟨2⟩))⟩) 3).fst.map
            CallEvent.target
        = (contextAwareHandler.Handle envW σW 0
            (some ⟨some (.typedLogger (some ⟨2⟩))⟩) recW).fst.map
              CallEvent.target)
    ∧ ((contextAwareHandler.Handle envW σW 0
          (some ⟨some (.typedLogger (some ⟨2⟩))⟩) recW).fst.map
            CallEvent.target
        = (contextAwareHandler.Handle
            ⟨fun _ _ _ => false, fun _ _ _ => some "e",
              fun i _ => i + 1, fun i _ => i + 1⟩ σW 0
            (some ⟨some (.typedLogger (some ⟨2⟩))⟩) recW).fst.map
              CallEvent.target)) :=
  ⟨by decide,
    contextAwareHandler.c10_resolution_stateless envW
      ⟨fun _ _ _ => false, fun _ _ _ => some "e",
        fun i _ => i + 1, fun i _ => i + 1⟩
      σW (fun i => if i = 0 then ⟨1⟩ else ⟨9⟩) 0
      (some ⟨some (.typedLogger (some ⟨2⟩))⟩) 3 recW (by decide)⟩
